import Mathlib

/-!
A shallow embedding of the delta-go trading engine, checked against its
natural-language specification.

Conventions used throughout:
* Go `float64` values are modelled as exact rationals (`ℚ`); the code under
  scrutiny performs only field arithmetic, comparisons, `math.Floor`, integer
  conversion and `math.Min`, all of which are exact here.
* Go string-typed enumerations (order states, sides, signal actions, market
  regimes) are modelled as `String` with the same literal values.
* Wall-clock time is modelled as a rational number of hours passed explicitly
  to the functions that call `time.Now()`.
* A `GetOrderByID` call that returns an error is modelled as `none`; a
  successful call as `some order`.  A polling loop bounded by a real-time
  deadline is modelled by the finite list of poll results observed before the
  deadline, followed by the one final check the code performs after it.
-/

namespace DeltaGo

/-- An exchange order, with the fields the execution state machine in
`go/pkg/delta/orders.go` reads: `ID`, `State`, `Size` and `UnfilledSize`. -/
structure Order where
  id : Int
  state : String
  size : Int
  unfilledSize : Int
deriving DecidableEq, Repr

/-- An order request (`go/pkg/delta/orders.go`, `OrderRequest`), restricted to
the fields `PlaceLimitOrderWithFallback` reads or writes.  Go zero values
(empty strings) are the field defaults, exactly as a Go struct literal that
omits them. -/
structure OrderRequest where
  productID : Int
  size : Int
  side : String
  orderType : String := ""
  timeInForce : String := ""
  limitPrice : String := ""
  bracketStopLossPrice : String := ""
  bracketStopLossLimitPrice : String := ""
  bracketTakeProfitPrice : String := ""
  bracketTakeProfitLimitPrice : String := ""
deriving DecidableEq, Repr

/-- Outcome of one `GetOrderByID` poll: `none` is an error return. -/
abbrev PollResult := Option Order

/-- The errors `WaitForOrderFill` can return, one constructor per `return`
of an error in the Go source.  `orderRejected` is the typed
`OrderRejectedError{OrderID, Reason}`. -/
inductive FillErr where
  | pollRetriesExhausted
  | wasCancelled (orderID : Int)
  | orderRejected (orderID : Int) (reason : String)
  | unexpectedState (orderID : Int) (state : String)
deriving DecidableEq, Repr

/-- The polling loop of `WaitForOrderFill` (`orders.go`).  `polls` are the
`GetOrderByID` results observed before the deadline, `finalPoll` the one
final check after it.  `consecutiveErrors` and `lastOrder` are the loop
variables.  `Except.ok (some o)` models `return order, nil` on a fill,
`Except.ok none` models the `return nil, nil` timeout. -/
def waitForOrderFillLoop (orderID : Int) (polls : List PollResult)
    (consecutiveErrors : Nat) (lastOrder : Option Order)
    (finalPoll : PollResult) : Except FillErr (Option Order) :=
  match polls with
  | [] =>
    -- Final check after deadline to catch fills at the last moment.
    match finalPoll with
    | some o =>
      if o.state = "filled" then .ok (some o)
      else .ok none
    | none =>
      match lastOrder with
      | some lo => if lo.state = "filled" then .ok (some lo) else .ok none
      | none => .ok none
  | p :: rest =>
    match p with
    | none =>
      if consecutiveErrors + 1 ≥ 3 then .error .pollRetriesExhausted
      else waitForOrderFillLoop orderID rest (consecutiveErrors + 1) lastOrder finalPoll
    | some o =>
      if o.state = "filled" then .ok (some o)
      else if o.state = "cancelled" then .error (.wasCancelled orderID)
      else if o.state = "rejected" then
        .error (.orderRejected orderID "order rejected by exchange")
      else if o.state ≠ "open" ∧ o.state ≠ "pending" ∧ o.state ≠ "partially_filled" then
        .error (.unexpectedState orderID o.state)
      else waitForOrderFillLoop orderID rest 0 (some o) finalPoll

/-- `WaitForOrderFill` (`orders.go`): polls order status until filled,
a terminal failure state, or timeout. -/
def WaitForOrderFill (orderID : Int) (polls : List PollResult)
    (finalPoll : PollResult) : Except FillErr (Option Order) :=
  waitForOrderFillLoop orderID polls 0 none finalPoll

/-- The polling loop of `waitForCancelConfirmation` (`orders.go`): after the
cancel request, poll for a terminal state for up to 2 seconds (modelled by the
finite list `polls`), then one final check.  Returns the final order state and
whether it is safe to place a replacement. -/
def waitForCancelLoop (polls : List PollResult) (finalPoll : PollResult) :
    Option Order × Bool :=
  match polls with
  | [] =>
    match finalPoll with
    | none => (none, false) -- can't verify, not safe
    | some o =>
      if o.state = "filled" then (some o, false)
      else if o.state = "cancelled" then (some o, true)
      else (some o, false) -- still active after cancel attempt
  | p :: rest =>
    match p with
    | none => waitForCancelLoop rest finalPoll
    | some o =>
      if o.state = "filled" then (some o, false) -- already filled, don't replace
      else if o.state = "cancelled" then (some o, true) -- cancelled, safe to replace
      else waitForCancelLoop rest finalPoll

/-- `waitForCancelConfirmation` (`orders.go`): cancels an order and waits for
confirmation, giving the final order state and whether replacement is safe. -/
def waitForCancelConfirmation (polls : List PollResult) (finalPoll : PollResult) :
    Option Order × Bool :=
  waitForCancelLoop polls finalPoll

/-- The error returns of `PlaceLimitOrderWithFallback`: the propagated
`OrderRejectedError`, and the two `cannot safely replace` failures. -/
inductive FallbackErr where
  | rejected (orderID : Int) (reason : String)
  | cannotSafelyReplace
  | cannotSafelyReplaceAfterTimeout
deriving DecidableEq, Repr

/-- How one execution of `PlaceLimitOrderWithFallback` ends: with an error,
by returning an order (or Go `nil`, modelled `none`) directly, or by the tail
call `c.PlaceOrder(marketReq)` placing a market order. -/
inductive FallbackResult where
  | failed (e : FallbackErr)
  | returned (o : Option Order)
  | marketPlaced (req : OrderRequest)
deriving DecidableEq, Repr

/-- The oracle for one execution of `PlaceLimitOrderWithFallback`: the outcome
of `PlaceAggressiveLimitOrder`, the fill polls and final fill poll consumed by
`WaitForOrderFill`, and the cancel polls and final poll consumed by
`waitForCancelConfirmation` (which is invoked at most once per execution). -/
structure FallbackEnv where
  limitPlaced : Except Unit Order
  fillPolls : List PollResult
  fillFinalPoll : PollResult
  cancelPolls : List PollResult
  cancelFinalPoll : PollResult

/-- `PlaceLimitOrderWithFallback` (`orders.go`): places a limit order and
falls back to a market order if it does not fill, preserving the source's
bracket-attachment and cancel-confirmation logic branch for branch. -/
def PlaceLimitOrderWithFallback (req : OrderRequest) (env : FallbackEnv) :
    FallbackResult :=
  let hasBracket : Bool :=
    req.bracketStopLossPrice ≠ "" ∨ req.bracketTakeProfitPrice ≠ ""
  match env.limitPlaced with
  | .error _ =>
    -- Limit order failed: try market order immediately (keep bracket fields).
    .marketPlaced
      { productID := req.productID, size := req.size, side := req.side,
        orderType := "market_order",
        bracketStopLossPrice := req.bracketStopLossPrice,
        bracketStopLossLimitPrice := req.bracketStopLossLimitPrice,
        bracketTakeProfitPrice := req.bracketTakeProfitPrice,
        bracketTakeProfitLimitPrice := req.bracketTakeProfitLimitPrice }
  | .ok limitOrder =>
    match WaitForOrderFill limitOrder.id env.fillPolls env.fillFinalPoll with
    | .error (.orderRejected oid reason) =>
      -- Rejection: do NOT fall back to market.
      .failed (.rejected oid reason)
    | .error _ =>
      -- Other polling error: cancel and verify state.
      match waitForCancelConfirmation env.cancelPolls env.cancelFinalPoll with
      | (some finalOrder, safeToReplace) =>
        if finalOrder.state = "filled" then .returned (some finalOrder)
        else if safeToReplace then
          .marketPlaced
            { productID := req.productID, size := req.size, side := req.side,
              orderType := "market_order",
              bracketStopLossPrice := req.bracketStopLossPrice,
              bracketStopLossLimitPrice := req.bracketStopLossLimitPrice,
              bracketTakeProfitPrice := req.bracketTakeProfitPrice,
              bracketTakeProfitLimitPrice := req.bracketTakeProfitLimitPrice }
        else .failed .cannotSafelyReplace
      | (none, safeToReplace) =>
        if safeToReplace then
          .marketPlaced
            { productID := req.productID, size := req.size, side := req.side,
              orderType := "market_order",
              bracketStopLossPrice := req.bracketStopLossPrice,
              bracketStopLossLimitPrice := req.bracketStopLossLimitPrice,
              bracketTakeProfitPrice := req.bracketTakeProfitPrice,
              bracketTakeProfitLimitPrice := req.bracketTakeProfitLimitPrice }
        else .failed .cannotSafelyReplace
    | .ok (some filledOrder) => .returned (some filledOrder)
    | .ok none =>
      -- Timed out: cancel and verify state before placing market.
      match waitForCancelConfirmation env.cancelPolls env.cancelFinalPoll with
      | (some finalOrder, safeToReplace) =>
        if finalOrder.state = "filled" then .returned (some finalOrder)
        else if safeToReplace then
          let filledQty := finalOrder.size - finalOrder.unfilledSize
          let remainingSize := finalOrder.unfilledSize
          if remainingSize ≤ 0 then .returned (some finalOrder)
          else if filledQty = 0 ∧ hasBracket then
            .marketPlaced
              { productID := req.productID, size := remainingSize,
                side := req.side, orderType := "market_order",
                bracketStopLossPrice := req.bracketStopLossPrice,
                bracketStopLossLimitPrice := req.bracketStopLossLimitPrice,
                bracketTakeProfitPrice := req.bracketTakeProfitPrice,
                bracketTakeProfitLimitPrice := req.bracketTakeProfitLimitPrice }
          else
            -- Partial fill: do NOT re-attach bracket fields.
            .marketPlaced
              { productID := req.productID, size := remainingSize,
                side := req.side, orderType := "market_order" }
        else .failed .cannotSafelyReplaceAfterTimeout
      | (none, safeToReplace) =>
        if safeToReplace then
          if req.size ≤ 0 then .returned none
          else if hasBracket then
            .marketPlaced
              { productID := req.productID, size := req.size, side := req.side,
                orderType := "market_order",
                bracketStopLossPrice := req.bracketStopLossPrice,
                bracketStopLossLimitPrice := req.bracketStopLossLimitPrice,
                bracketTakeProfitPrice := req.bracketTakeProfitPrice,
                bracketTakeProfitLimitPrice := req.bracketTakeProfitLimitPrice }
          else
            .marketPlaced
              { productID := req.productID, size := req.size, side := req.side,
                orderType := "market_order" }
        else .failed .cannotSafelyReplaceAfterTimeout

/-! ### Risk manager (`go/pkg/risk/manager.go`) -/

/-- Market regime labels (`delta.MarketRegime`, a Go string type). -/
abbrev MarketRegime := String

/-- `delta.RegimeBull`. -/
def RegimeBull : MarketRegime := "bull"

/-- `delta.RegimeBear`. -/
def RegimeBear : MarketRegime := "bear"

/-- `delta.RegimeRanging`. -/
def RegimeRanging : MarketRegime := "ranging"

/-- `delta.RegimeHighVol`. -/
def RegimeHighVol : MarketRegime := "high_volatility"

/-- `delta.RegimeLowVol`. -/
def RegimeLowVol : MarketRegime := "low_volatility"

/-- The risk-relevant fields of `config.Config`. -/
structure RiskConfig where
  maxDrawdownPct : ℚ
  stopLossPct : ℚ := 2
  takeProfitPct : ℚ := 4
  riskPerTradePct : ℚ := 1
  maxPositionPct : ℚ := 10
  leverage : Int := 10
deriving DecidableEq, Repr

/-- A trading product (`delta.Product`), restricted to the fields the risk
and backtest layers read.  The Go `ContractValue` and `TickSize` fields are
decimal strings parsed with `strconv.ParseFloat`; they are modelled by their
parse result, `none` standing for an empty or unparseable string. -/
structure Product where
  id : Int := 0
  symbol : String := ""
  contractValue : Option ℚ := none
  tickSize : Option ℚ := none
deriving DecidableEq, Repr

/-- The state of `risk.RiskManager`.  All timestamps are rational hours. -/
structure RiskManager where
  cfg : RiskConfig
  peakBalance : ℚ := 0
  currentBalance : ℚ := 0
  currentDrawdown : ℚ := 0
  dailyStartBalance : ℚ := 0
  dailyPnL : ℚ := 0
  dailyLossLimit : ℚ
  currentDay : ℚ
  isCircuitBroken : Bool := false
  circuitBrokenAt : ℚ := 0
  isDailyLimitHit : Bool := false
  dailyLimitResetTime : ℚ := 0
deriving DecidableEq, Repr

/-- `time.Now().Truncate(24 * time.Hour)` on a timestamp in hours. -/
def dayStart (now : ℚ) : ℚ := 24 * ⌊now / 24⌋

/-- `risk.NewRiskManager`: the daily loss limit is the hard-coded −5%. -/
def NewRiskManager (cfg : RiskConfig) (now : ℚ) : RiskManager :=
  { cfg := cfg, dailyLossLimit := -5, currentDay := dayStart now }

/-- `UpdateBalance`, new-day branch: reset the daily tracking when a new UTC
day has started. -/
def RiskManager.rollDailyWindow (rm : RiskManager) (today balance : ℚ) :
    RiskManager :=
  if today > rm.currentDay then
    { rm with currentDay := today, dailyStartBalance := balance,
              dailyPnL := 0, isDailyLimitHit := false }
  else rm

/-- `UpdateBalance`: initialize daily start balance if not set. -/
def RiskManager.initDailyStart (rm : RiskManager) (balance : ℚ) : RiskManager :=
  if rm.dailyStartBalance = 0 then { rm with dailyStartBalance := balance }
  else rm

/-- `UpdateBalance`: record the current balance. -/
def RiskManager.setCurrentBalance (rm : RiskManager) (balance : ℚ) : RiskManager :=
  { rm with currentBalance := balance }

/-- `UpdateBalance`: recompute the daily P&L percentage. -/
def RiskManager.recomputeDailyPnL (rm : RiskManager) (balance : ℚ) : RiskManager :=
  if rm.dailyStartBalance > 0 then
    { rm with dailyPnL := (balance - rm.dailyStartBalance) / rm.dailyStartBalance * 100 }
  else rm

/-- `UpdateBalance`: latch the daily loss limit when daily P&L breaches it. -/
def RiskManager.latchDailyLimit (rm : RiskManager) (today : ℚ) : RiskManager :=
  if rm.dailyPnL ≤ rm.dailyLossLimit ∧ ¬rm.isDailyLimitHit then
    { rm with isDailyLimitHit := true, dailyLimitResetTime := today + 24 }
  else rm

/-- `UpdateBalance`: the peak balance is monotone non-decreasing. -/
def RiskManager.raisePeak (rm : RiskManager) (balance : ℚ) : RiskManager :=
  if balance > rm.peakBalance then { rm with peakBalance := balance } else rm

/-- `UpdateBalance`: recompute the drawdown from the peak. -/
def RiskManager.recomputeDrawdown (rm : RiskManager) (balance : ℚ) : RiskManager :=
  if rm.peakBalance > 0 then
    { rm with currentDrawdown := (rm.peakBalance - balance) / rm.peakBalance * 100 }
  else rm

/-- `UpdateBalance`: latch the circuit breaker (with timestamp) when the
drawdown reaches the configured maximum. -/
def RiskManager.latchCircuitBreaker (rm : RiskManager) (now : ℚ) : RiskManager :=
  if rm.currentDrawdown ≥ rm.cfg.maxDrawdownPct ∧ ¬rm.isCircuitBroken then
    { rm with isCircuitBroken := true, circuitBrokenAt := now }
  else rm

/-- `RiskManager.UpdateBalance` (`manager.go`), with `now` the wall clock in
hours: the method's mutations applied in source order. -/
def RiskManager.UpdateBalance (rm : RiskManager) (now : ℚ) (balance : ℚ) :
    RiskManager :=
  let today := dayStart now
  ((((((((rm.rollDailyWindow today balance).initDailyStart
    balance).setCurrentBalance balance).recomputeDailyPnL
    balance).latchDailyLimit today).raisePeak balance).recomputeDrawdown
    balance).latchCircuitBreaker now)

/-- Why `CanTrade` blocks trading (the Go method formats these as strings). -/
inductive TradeBlock where
  | dailyLossLimitHit
  | circuitBreakerActive
deriving DecidableEq, Repr

/-- `RiskManager.CanTrade` (`manager.go`): note that it takes only a read
lock and mutates nothing; the returned `RiskManager` state is the caller's
unchanged one. -/
def RiskManager.CanTrade (rm : RiskManager) (now : ℚ) : Bool × Option TradeBlock :=
  if rm.isDailyLimitHit then
    if now > rm.dailyLimitResetTime then (true, none)
    else (false, some .dailyLossLimitHit)
  else if rm.isCircuitBroken then
    if now - rm.circuitBrokenAt > 24 then (true, none)
    else (false, some .circuitBreakerActive)
  else (true, none)

/-- `RiskManager.getRegimeMultiplier` (`manager.go`). -/
def getRegimeMultiplier (regime : MarketRegime) : ℚ :=
  if regime = RegimeBull then 12/10
  else if regime = RegimeBear then 8/10
  else if regime = RegimeRanging then 1
  else if regime = RegimeHighVol then 1/2
  else if regime = RegimeLowVol then 1
  else 1

/-- Go's `int(x)` conversion of a float: truncation toward zero. -/
def truncInt (q : ℚ) : Int := if 0 ≤ q then ⌊q⌋ else ⌈q⌉

/-- `RiskManager.calculateMaxSize` (`manager.go`): maximum contracts from
the account limits; the contract value defaults to 1 when the product is
nil or its value does not parse. -/
def RiskManager.calculateMaxSize (rm : RiskManager) (balance price : ℚ)
    (product : Option Product) : Int :=
  let maxValue := balance * (rm.cfg.maxPositionPct / 100) * (rm.cfg.leverage : ℚ)
  let contractValue : ℚ :=
    match product with
    | some p => match p.contractValue with | some cv => cv | none => 1
    | none => 1
  truncInt (maxValue / (price * contractValue))

/-- `RiskManager.CalculatePositionSize` (`manager.go`). -/
def RiskManager.CalculatePositionSize (rm : RiskManager)
    (balance entryPrice stopLossPrice : ℚ) (regime : MarketRegime)
    (product : Option Product) : Int :=
  let riskAmount := balance * (rm.cfg.riskPerTradePct / 100)
  let adjustedRisk := riskAmount * getRegimeMultiplier regime
  let riskPerContract := |entryPrice - stopLossPrice|
  let riskPerContract :=
    if riskPerContract ≤ 0 then entryPrice * (rm.cfg.stopLossPct / 100)
    else riskPerContract
  let contracts := adjustedRisk / riskPerContract
  let contracts := contracts * (rm.cfg.leverage : ℚ)
  let size := ⌊contracts⌋
  let maxSize := rm.calculateMaxSize balance entryPrice product
  let size := if size > maxSize then maxSize else size
  if size < 1 then 1 else size

/-! ### Backtest position (`go/pkg/backtest/types.go`) -/

/-- A backtest position (`backtest.Position`). -/
structure Position where
  symbol : String := ""
  side : String
  size : ℚ
  entryPrice : ℚ
  entryTime : ℚ := 0
  stopLoss : ℚ := 0
  takeProfit : ℚ := 0
  initialMargin : ℚ := 0
  entryFee : ℚ := 0
  entrySlip : ℚ := 0
  fundingPaid : ℚ := 0
deriving DecidableEq, Repr

/-- `Position.UnrealizedPnL` (`types.go`): `Size` is a contract count,
`contractValue` comes from `Product.ContractValue`. -/
def Position.UnrealizedPnL (p : Position) (currentPrice contractValue : ℚ) : ℚ :=
  let multiplier : ℚ := if p.side = "sell" then -1 else 1
  let priceDiff := currentPrice - p.entryPrice
  p.size * contractValue * priceDiff * multiplier

/-! ### Strategy signals and market features -/

/-- `strategy.SignalAction`, a Go string type. -/
abbrev SignalAction := String

/-- `strategy.ActionNone`. -/
def ActionNone : SignalAction := "none"

/-- `strategy.ActionBuy`. -/
def ActionBuy : SignalAction := "buy"

/-- `strategy.ActionSell`. -/
def ActionSell : SignalAction := "sell"

/-- `strategy.ActionClose`. -/
def ActionClose : SignalAction := "close"

/-- `strategy.Signal`; unset fields default to Go zero values. -/
structure Signal where
  action : SignalAction := ""
  side : String := ""
  confidence : ℚ := 0
  price : ℚ := 0
  stopLoss : ℚ := 0
  takeProfit : ℚ := 0
  reason : String := ""
  isHedged : Bool := false
deriving DecidableEq, Repr

/-- `features.MarketFeatures`, restricted to the fields the grid and funding
strategies read. -/
structure MarketFeatures where
  symbol : String := ""
  bestBid : ℚ := 0
  bestAsk : ℚ := 0
  historicalVol : ℚ := 0
  basisAnnualized : ℚ := 0
deriving DecidableEq, Repr

/-! ### Grid trading strategy (`go/pkg/strategy/grid_trading.go`) -/

/-- `strategy.GridConfig`. -/
structure GridConfig where
  gridLevels : Nat
  gridRangePct : ℚ
  positionSizePerLevel : Int
  maxVolatilityPct : ℚ
  minVolatilityPct : ℚ
  enabled : Bool
deriving DecidableEq, Repr

/-- `strategy.DefaultGridConfig`. -/
def DefaultGridConfig : GridConfig :=
  { gridLevels := 10, gridRangePct := 3, positionSizePerLevel := 1,
    maxVolatilityPct := 200, minVolatilityPct := 150, enabled := true }

/-- `strategy.GridLevel`. -/
structure GridLevel where
  price : ℚ
  side : String
  orderID : Int := 0
  isActive : Bool
deriving DecidableEq, Repr

/-- The mutable state of `strategy.GridTradingStrategy`. -/
structure GridTradingStrategy where
  cfg : GridConfig
  levels : List GridLevel := []
  isActive : Bool := false
  symbol : String
  centerPrice : ℚ := 0
deriving DecidableEq, Repr

/-- `strategy.NewGridTradingStrategy`. -/
def NewGridTradingStrategy (cfg : GridConfig) (symbol : String) :
    GridTradingStrategy :=
  { cfg := cfg, symbol := symbol }

/-- `GridTradingStrategy.CalculateLevels` (`grid_trading.go`). -/
def GridTradingStrategy.CalculateLevels (g : GridTradingStrategy) (midPrice : ℚ) :
    List GridLevel :=
  let rangeAmt := midPrice * (g.cfg.gridRangePct / 100)
  let step := (rangeAmt * 2) / ((g.cfg.gridLevels : ℚ) - 1)
  let startPrice := midPrice - rangeAmt
  (List.range g.cfg.gridLevels).map fun i =>
    let price := startPrice + (i : ℚ) * step
    { price := price, side := if price > midPrice then "sell" else "buy",
      isActive := true }

/-- `GridTradingStrategy.Analyze` (`grid_trading.go`), in state-passing form:
the returned strategy is the receiver after the method's mutations. -/
def GridTradingStrategy.Analyze (g : GridTradingStrategy) (f : MarketFeatures) :
    GridTradingStrategy × Signal :=
  if ¬g.cfg.enabled then (g, { action := ActionNone, reason := "grid disabled" })
  else
    let volPct := f.historicalVol * 100
    let midPrice := (f.bestBid + f.bestAsk) / 2
    if ¬g.isActive then
      if volPct < g.cfg.minVolatilityPct ∧ volPct > 5 then
        let activated :=
          { g with isActive := true, centerPrice := midPrice,
                   levels := g.CalculateLevels midPrice }
        (activated, { action := ActionNone, reason := "grid activated, placing levels" })
      else (g, { action := ActionNone, reason := "conditions not met for grid" })
    else if volPct > g.cfg.maxVolatilityPct then
      ({ g with isActive := false },
       { action := ActionClose, reason := "grid deactivated: high volatility" })
    else
      let driftPct := |midPrice - g.centerPrice| / g.centerPrice * 100
      if driftPct > g.cfg.gridRangePct * (8/10) then
        ({ g with isActive := false },
         { action := ActionClose, reason := "grid recentering" })
      else
        match g.levels.head?, g.levels.getLast? with
        | some l0, some ln =>
          let lb := l0.price
          let ub := ln.price
          let lowerBound := if lb > ub then ub else lb
          let upperBound := if lb > ub then lb else ub
          if midPrice < lowerBound then
            (g, { action := ActionBuy, side := "buy", price := midPrice,
                  reason := "price below grid lower bound", confidence := 8/10 })
          else if midPrice > upperBound then
            (g, { action := ActionSell, side := "sell", price := midPrice,
                  reason := "price above grid upper bound", confidence := 8/10 })
          else (g, { action := ActionNone, reason := "grid monitoring" })
        | _, _ => (g, { action := ActionNone, reason := "grid monitoring" })

/-! ### Funding arbitrage strategy (`go/pkg/strategy/funding_arbitrage.go`) -/

/-- `strategy.FundingArbitrageConfig`. -/
structure FundingArbitrageConfig where
  entryThresholdAnnualized : ℚ
  exitThresholdAnnualized : ℚ
  maxHoldingHours : ℚ
  maxPositionPct : ℚ
  enabled : Bool
deriving DecidableEq, Repr

/-- `strategy.DefaultFundingArbitrageConfig`. -/
def DefaultFundingArbitrageConfig : FundingArbitrageConfig :=
  { entryThresholdAnnualized := 15/100, exitThresholdAnnualized := 5/100,
    maxHoldingHours := 24, maxPositionPct := 33, enabled := true }

/-- `strategy.FundingPosition`; `entryTime` in hours. -/
structure FundingPosition where
  symbol : String
  side : String
  entryTime : ℚ
  entryRate : ℚ
deriving DecidableEq, Repr

/-- `strategy.FundingArbitrageStrategy`: config plus the recorded positions
map (an association list keyed by symbol). -/
structure FundingArbitrageStrategy where
  cfg : FundingArbitrageConfig
  positions : List (String × FundingPosition) := []
deriving DecidableEq, Repr

/-- `strategy.oppositeSide` (`strategy.go`). -/
def oppositeSide (side : String) : String :=
  if side = "buy" then "sell" else "buy"

/-- `FundingArbitrageStrategy.Analyze` (`funding_arbitrage.go`), with `now`
the wall clock in hours so that `time.Since(pos.EntryTime).Hours()` becomes
`now - pos.entryTime`. -/
def FundingArbitrageStrategy.Analyze (s : FundingArbitrageStrategy) (now : ℚ)
    (f : MarketFeatures) : Signal :=
  if ¬s.cfg.enabled then { action := ActionNone, reason := "funding arb disabled" }
  else
    let fundingAnn := f.basisAnnualized
    match s.positions.lookup f.symbol with
    | some pos =>
      if |fundingAnn| < s.cfg.exitThresholdAnnualized then
        { action := ActionClose, side := oppositeSide pos.side, confidence := 8/10,
          reason := "funding dropped below exit threshold" }
      else if now - pos.entryTime > s.cfg.maxHoldingHours then
        { action := ActionClose, side := oppositeSide pos.side, confidence := 7/10,
          reason := "max holding time exceeded" }
      else { action := ActionNone, reason := "holding funding position" }
    | none =>
      if |fundingAnn| > s.cfg.entryThresholdAnnualized then
        if fundingAnn < 0 then
          { action := ActionBuy, side := "buy", confidence := 65/100,
            reason := "high funding rate opportunity" }
        else
          { action := ActionSell, side := "sell", confidence := 65/100,
            reason := "high funding rate opportunity" }
      else { action := ActionNone, reason := "funding below threshold" }

/-! ### Slippage models (`go/pkg/backtest`, volatility slippage) -/

/-- A market candle (`delta.Candle`); only `high` and `low` are read by the
slippage model. -/
structure Candle where
  time : ℚ := 0
  openPrice : ℚ := 0
  high : ℚ := 0
  low : ℚ := 0
  closePrice : ℚ := 0
  volume : ℚ := 0
deriving DecidableEq, Repr

/-- `backtest.VolatilitySlippage`. -/
structure VolatilitySlippage where
  baseBps : ℚ
  volFactor : ℚ
deriving DecidableEq, Repr

/-- `VolatilitySlippage.Calculate`: base bps plus an intrabar-volatility
contribution capped at 10× base. -/
def VolatilitySlippage.Calculate (s : VolatilitySlippage) (side : String)
    (size : ℚ) (candle : Candle) (volatility : ℚ) : ℚ :=
  let mid := (candle.high + candle.low) / 2
  let intrabarVol := (candle.high - candle.low) / mid * 100
  let volContribution := min (intrabarVol * s.volFactor) (s.baseBps * 10)
  let totalBps := s.baseBps + volContribution
  mid * (totalBps / 10000)

/-! ### Contract conversions (`go/pkg/delta/conversions.go`) and the
backtest engine (`go/pkg/backtest/engine.go`) -/

/-- `delta.ParseContractValue`: errors when the product is nil or its
contract-value string is empty or unparseable (all modelled by `none`). -/
def ParseContractValue (p : Option Product) : Except Unit ℚ :=
  match p with
  | none => .error ()
  | some prod =>
    match prod.contractValue with
    | none => .error ()
    | some cv => .ok cv

/-- `delta.NotionalToContracts`: `floor(notional / (price · contractValue))`
for linear futures, rejecting non-positive price or contract value. -/
def NotionalToContracts (notionalUSD price : ℚ) (product : Option Product) :
    Except Unit Int :=
  if price ≤ 0 then .error ()
  else
    match ParseContractValue product with
    | .error e => .error e
    | .ok cv =>
      if cv ≤ 0 then .error ()
      else .ok ⌊notionalUSD / (price * cv)⌋

/-- `delta.ContractsToNotional`: `contracts · price · contractValue` for
linear futures, rejecting a non-positive price. -/
def ContractsToNotional (contracts : Int) (price : ℚ) (product : Option Product) :
    Except Unit ℚ :=
  if price ≤ 0 then .error ()
  else
    match ParseContractValue product with
    | .error e => .error e
    | .ok cv => .ok ((contracts : ℚ) * price * cv)

/-- `delta.MockProduct`: typical Delta Exchange contract values per symbol. -/
def MockProduct (symbol : String) : Product :=
  if symbol = "BTCUSD" ∨ symbol = "BTCINR" then
    { id := 27, symbol := symbol, contractValue := some (1/1000), tickSize := some (1/2) }
  else if symbol = "ETHUSD" ∨ symbol = "ETHINR" then
    { id := 139, symbol := symbol, contractValue := some (1/100), tickSize := some (1/20) }
  else if symbol = "SOLUSD" ∨ symbol = "SOLINR" then
    { id := 259, symbol := symbol, contractValue := some (1/10), tickSize := some (1/100) }
  else
    { id := 0, symbol := symbol, contractValue := some (1/1000), tickSize := some (1/100) }

/-- `backtest.Config`, restricted to the fields `openPositionAtPrice` and its
helpers read. -/
structure BacktestConfig where
  leverage : Int
  takerFeeBps : ℚ
  makerFeeBps : ℚ := 0
  products : List (String × Product) := []

/-- The state of `backtest.Engine` relevant to opening positions: the
positions map, cash equity, reserved margin, and the configured slippage
model (a function of side, size, candle and volatility, as the Go
`SlippageModel` interface). -/
structure Engine where
  config : BacktestConfig
  slippage : String → ℚ → Candle → ℚ → ℚ
  positions : List (String × Position) := []
  equity : ℚ
  usedMargin : ℚ := 0

/-- `Engine.getAvailableMargin`. -/
def Engine.getAvailableMargin (e : Engine) : ℚ := e.equity - e.usedMargin

/-- `Engine.calculateRequiredMargin`: initial margin = notional / leverage. -/
def Engine.calculateRequiredMargin (e : Engine) (notional : ℚ) : ℚ :=
  notional / (e.config.leverage : ℚ)

/-- `Engine.getProduct`: configured product for the symbol, falling back to
`MockProduct` (never nil). -/
def Engine.getProduct (e : Engine) (symbol : String) : Product :=
  match e.config.products.lookup symbol with
  | some p => p
  | none => MockProduct symbol

/-- `backtest.absFloat`. -/
def absFloat (x : ℚ) : ℚ := |x|

/-- `Engine.calculatePositionSize` (`engine.go`): contract count from risk
(2% of equity per trade), capped by available margin × leverage, with a 10%
of available margin default when no stop distance applies. -/
def Engine.calculatePositionSize (e : Engine) (symbol : String)
    (entryPrice stopLoss : ℚ) : Int :=
  if e.equity ≤ 10 then 0
  else
    let availableMargin := e.getAvailableMargin
    if availableMargin ≤ 0 then 0
    else
      let riskPct : ℚ := 2/100
      let riskAmount := e.equity * riskPct
      let maxPositionValue := availableMargin * (e.config.leverage : ℚ)
      let positionValue : ℚ :=
        if stopLoss > 0 ∧ entryPrice > 0 then
          let stopPct := absFloat (entryPrice - stopLoss) / entryPrice
          if stopPct > 0 then
            let pv := riskAmount / stopPct
            if pv > maxPositionValue then maxPositionValue else pv
          else 0
        else 0
      let positionValue :=
        if positionValue ≤ 0 then
          let pv := availableMargin * (10/100) * (e.config.leverage : ℚ)
          if pv > maxPositionValue then maxPositionValue else pv
        else positionValue
      match NotionalToContracts positionValue entryPrice (some (e.getProduct symbol)) with
      | .error _ => 0
      | .ok contracts => if contracts < 1 then 0 else contracts

/-- `backtest.ApplySlippage`: buys fill higher, sells fill lower. -/
def ApplySlippage (price slippage : ℚ) (side : String) : ℚ :=
  if side = "buy" then price + slippage else price - slippage

/-- `backtest.CalculateFee`: `size` is already the notional value in dollars. -/
def CalculateFee (price size contractValue feeBps : ℚ) : ℚ :=
  size * (feeBps / 10000)

/-- Go map assignment `e.positions[symbol] = pos` on the association list. -/
def setPosition (positions : List (String × Position)) (symbol : String)
    (pos : Position) : List (String × Position) :=
  (symbol, pos) :: positions.filter (fun kv => kv.1 != symbol)

/-- `Engine.openPositionAtPrice` (`engine.go`): opens a position at a fill
price, or returns with the engine unchanged when sizing, notional conversion
or the margin check fails. -/
def Engine.openPositionAtPrice (e : Engine) (symbol : String) (signal : Signal)
    (candle : Candle) (ts : ℚ) (fillPrice : ℚ) : Engine :=
  let contracts := e.calculatePositionSize symbol fillPrice signal.stopLoss
  if contracts ≤ 0 then e
  else
    let product := e.getProduct symbol
    match ContractsToNotional contracts fillPrice (some product) with
    | .error _ => e
    | .ok notional =>
      if notional ≤ 0 then e
      else
        let requiredMargin := e.calculateRequiredMargin notional
        if requiredMargin > e.getAvailableMargin then e
        else
          let slippageAmt := e.slippage signal.side notional candle 0
          let actualEntryPrice := ApplySlippage fillPrice slippageAmt signal.side
          let fee := CalculateFee actualEntryPrice notional 1 e.config.takerFeeBps
          let pos : Position :=
            { symbol := symbol, side := signal.side, size := (contracts : ℚ),
              entryPrice := actualEntryPrice, entryTime := ts,
              stopLoss := signal.stopLoss, takeProfit := signal.takeProfit,
              initialMargin := requiredMargin, entryFee := fee,
              entrySlip := slippageAmt }
          { e with usedMargin := e.usedMargin + requiredMargin,
                   positions := setPosition e.positions symbol pos,
                   equity := e.equity - fee }

/-! ### Theorems -/

/-- C6: for every backtest position, unrealized P&L equals
`contracts · contract_value · (current − entry) · direction` with direction
`+1` for long (`buy`) and `−1` for short (`sell`); in particular a long of 10
contracts entered at 50000 with contract value 0.001 marked at 50500 has
unrealized P&L 5.00, and a short of 10 contracts entered at 50000 marked at
49500 also has +5.00. -/
theorem unrealizedPnL_linear_futures (p : Position) (cur cv : ℚ) :
    (p.side = "buy" → p.UnrealizedPnL cur cv = p.size * cv * (cur - p.entryPrice) * 1)
    ∧ (p.side = "sell" → p.UnrealizedPnL cur cv = p.size * cv * (cur - p.entryPrice) * (-1))
    ∧ Position.UnrealizedPnL { side := "buy", size := 10, entryPrice := 50000 } 50500 (1/1000) = 5
    ∧ Position.UnrealizedPnL { side := "sell", size := 10, entryPrice := 50000 } 49500 (1/1000) = 5 := by
  refine ⟨fun h => ?_, fun h => ?_, ?_, ?_⟩
  · simp [Position.UnrealizedPnL, h]
  · simp [Position.UnrealizedPnL, h]
  · norm_num [Position.UnrealizedPnL]
    decide
  · norm_num [Position.UnrealizedPnL]

/-- C9: for two candles with identical mid prices and a `VolatilitySlippage`
model with non-negative base bps and volatility factor, the candle with the
larger `high − low` range produces a slippage amount no smaller than the
other: `Calculate` is monotone non-decreasing in the intrabar range. -/
theorem volatilitySlippage_monotone_in_range (s : VolatilitySlippage)
    (side : String) (size vol : ℚ) (c1 c2 : Candle)
    (hbase : 0 ≤ s.baseBps) (hvf : 0 ≤ s.volFactor)
    (hmid : c1.high + c1.low = c2.high + c2.low)
    (hpos : 0 < c1.high + c1.low)
    (hrange : c2.high - c2.low ≤ c1.high - c1.low) :
    s.Calculate side size c2 vol ≤ s.Calculate side size c1 vol := by
  simp only [VolatilitySlippage.Calculate]
  rw [← hmid]
  have hm : (0:ℚ) < (c1.high + c1.low) / 2 := by linarith
  have hx : (c2.high - c2.low) / ((c1.high + c1.low) / 2) * 100 * s.volFactor
      ≤ (c1.high - c1.low) / ((c1.high + c1.low) / 2) * 100 * s.volFactor := by
    apply mul_le_mul_of_nonneg_right _ hvf
    apply mul_le_mul_of_nonneg_right _ (by norm_num : (0:ℚ) ≤ 100)
    exact (div_le_div_iff_of_pos_right hm).mpr hrange
  apply mul_le_mul_of_nonneg_left _ (le_of_lt hm)
  apply (div_le_div_iff_of_pos_right (by norm_num : (0:ℚ) < 10000)).mpr
  exact add_le_add_left (min_le_min hx le_rfl) s.baseBps

/-- C9 witness: the monotonicity theorem applied to two concrete candles with
mid 100, ranges 4 and 2, under the default volatility-slippage parameters. -/
theorem volatilitySlippage_monotone_in_range_witness :
    VolatilitySlippage.Calculate { baseBps := 3/2, volFactor := 1/2 } "buy" 1
        { high := 101, low := 99 } 0
      ≤ VolatilitySlippage.Calculate { baseBps := 3/2, volFactor := 1/2 } "buy" 1
        { high := 102, low := 98 } 0 :=
  volatilitySlippage_monotone_in_range { baseBps := 3/2, volFactor := 1/2 } "buy" 1 0
    { high := 102, low := 98 } { high := 101, low := 99 }
    (by norm_num) (by norm_num) (by norm_num) (by norm_num) (by norm_num)

/-- C10: whenever `openPositionAtPrice` aborts — non-positive contract count,
failed or non-positive notional conversion, or required margin exceeding the
available margin — the entire engine state is unchanged: no position is
created, no fee is debited from equity, and usedMargin is not increased. -/
theorem openPositionAtPrice_abort_preserves_state (e : Engine) (symbol : String)
    (signal : Signal) (candle : Candle) (ts fillPrice : ℚ)
    (h : e.calculatePositionSize symbol fillPrice signal.stopLoss ≤ 0
      ∨ ContractsToNotional (e.calculatePositionSize symbol fillPrice signal.stopLoss)
          fillPrice (some (e.getProduct symbol)) = .error ()
      ∨ (∃ n, ContractsToNotional (e.calculatePositionSize symbol fillPrice signal.stopLoss)
          fillPrice (some (e.getProduct symbol)) = .ok n ∧ n ≤ 0)
      ∨ (∃ n, ContractsToNotional (e.calculatePositionSize symbol fillPrice signal.stopLoss)
          fillPrice (some (e.getProduct symbol)) = .ok n ∧ 0 < n
          ∧ e.getAvailableMargin < e.calculateRequiredMargin n)) :
    e.openPositionAtPrice symbol signal candle ts fillPrice = e := by
  unfold Engine.openPositionAtPrice
  by_cases hc : e.calculatePositionSize symbol fillPrice signal.stopLoss ≤ 0
  · simp [hc]
  · rcases h with h | h | ⟨n, hok, hn⟩ | ⟨n, hok, hn, hm⟩
    · exact absurd h hc
    · simp [hc, h]
    · simp [hc, hok, hn]
    · simp [hc, hok, not_le.mpr hn, not_lt.mpr hm.le, hm]

/-- C10 witness: an engine with equity 5 (below the minimum trading equity
10) is left unchanged by `openPositionAtPrice`. -/
theorem openPositionAtPrice_abort_preserves_state_witness :
    Engine.openPositionAtPrice
      { config := { leverage := 10, takerFeeBps := 5 },
        slippage := fun _ _ _ _ => 0, equity := 5 }
      "BTCUSD" { action := "buy", side := "buy" } {} 0 100
    = { config := { leverage := 10, takerFeeBps := 5 },
        slippage := fun _ _ _ _ => 0, equity := 5 } :=
  openPositionAtPrice_abort_preserves_state
    { config := { leverage := 10, takerFeeBps := 5 },
      slippage := fun _ _ _ _ => 0, equity := 5 }
    "BTCUSD" { action := "buy", side := "buy" } {} 0 100
    (Or.inl (by norm_num [Engine.calculatePositionSize]))

/-- The C4 scenario: a fresh risk manager with the default 10% maximum
drawdown, a balance update to 100 followed by an update to 89, both at hour
0. -/
def drawdownLatchScenario : RiskManager :=
  ((NewRiskManager { maxDrawdownPct := 10 } 0).UpdateBalance 0 100).UpdateBalance 0 89

/-- The state reached by the C4 scenario, computed in full. -/
theorem drawdownLatchScenario_eq :
    drawdownLatchScenario =
      { cfg := { maxDrawdownPct := 10 }, peakBalance := 100,
        currentBalance := 89, currentDrawdown := 11, dailyStartBalance := 100,
        dailyPnL := -11, dailyLossLimit := -5, currentDay := 0,
        isCircuitBroken := true, circuitBrokenAt := 0, isDailyLimitHit := true,
        dailyLimitResetTime := 24 } := by
  norm_num [drawdownLatchScenario, NewRiskManager, RiskManager.UpdateBalance,
    dayStart, RiskManager.rollDailyWindow, RiskManager.initDailyStart,
    RiskManager.setCurrentBalance, RiskManager.recomputeDailyPnL,
    RiskManager.latchDailyLimit, RiskManager.raisePeak,
    RiskManager.recomputeDrawdown, RiskManager.latchCircuitBreaker]

/-- C4: after the balance drop to 89, `CanTrade` returns false; 25 hours
later it returns true — but the peak balance is still 100, not 89, and the
circuit-breaker latch is still set: `CanTrade` holds only a read lock and
never resets the peak (the reset the spec and
`TestCanTrade_ResetsCircuitBreakerAfter24Hours` describe exists only in the
manual `ResetCircuitBreaker`). -/
theorem canTrade_after_24h_peak_not_reset :
    (drawdownLatchScenario.CanTrade 0).1 = false
    ∧ (drawdownLatchScenario.CanTrade 25).1 = true
    ∧ drawdownLatchScenario.peakBalance = 100
    ∧ drawdownLatchScenario.currentBalance = 89
    ∧ drawdownLatchScenario.isCircuitBroken = true := by
  rw [drawdownLatchScenario_eq]
  norm_num [RiskManager.CanTrade]

/-- The risk manager used by the C5 counterexample: all config defaults
(risk per trade 1%, leverage 10, max position 10%, stop-loss 2%). -/
def c5rm : RiskManager := NewRiskManager { maxDrawdownPct := 10 } 0

/-- The product used by the C5 counterexample: contract value 0.001 (BTCUSD). -/
def c5product : Option Product := some { contractValue := some (1/1000) }

/-- C5 counterexample: with balance 100, entry 50000, stop 49000, the risk
computation yields `⌊0.01⌋ = 0` contracts, yet `CalculatePositionSize`
returns 1, not 0; and with balance 1 the maximum-position cap is 0 while the
result is still 1, exceeding the cap. -/
theorem calculatePositionSize_zero_risk_counterexample :
    ⌊100 * (c5rm.cfg.riskPerTradePct / 100) * getRegimeMultiplier RegimeRanging
        / |(50000:ℚ) - 49000| * (c5rm.cfg.leverage : ℚ)⌋ = 0
    ∧ c5rm.CalculatePositionSize 100 50000 49000 RegimeRanging c5product = 1
    ∧ c5rm.calculateMaxSize 1 50000 c5product = 0
    ∧ c5rm.CalculatePositionSize 1 50000 49000 RegimeRanging c5product = 1 := by
  have hmul : getRegimeMultiplier RegimeRanging = 1 := by
    simp [getRegimeMultiplier, RegimeRanging, RegimeBull, RegimeBear]
  norm_num [c5rm, c5product, NewRiskManager, RiskManager.CalculatePositionSize,
    RiskManager.calculateMaxSize, truncInt, hmul]

/-- C5 (amended): `CalculatePositionSize` never returns 0 — the minimum size
1 is enforced even when the risk computation yields zero contracts — and the
result respects the cap `calculateMaxSize` only when that cap is at least 1
(the cap is applied before the minimum bump). -/
theorem calculatePositionSize_min_one_and_cap (rm : RiskManager)
    (balance entryPrice stopLossPrice : ℚ) (regime : MarketRegime)
    (product : Option Product) :
    1 ≤ rm.CalculatePositionSize balance entryPrice stopLossPrice regime product
    ∧ (1 ≤ rm.calculateMaxSize balance entryPrice product →
        rm.CalculatePositionSize balance entryPrice stopLossPrice regime product
          ≤ rm.calculateMaxSize balance entryPrice product) := by
  constructor
  · simp only [RiskManager.CalculatePositionSize]
    split_ifs <;> omega
  · intro hmax
    simp only [RiskManager.CalculatePositionSize]
    split_ifs <;> omega

/-- C7 inputs: features with `HistoricalVol = 0.20` (mid price 100). -/
def gridF1 : MarketFeatures := { historicalVol := 1/5, bestBid := 100, bestAsk := 100 }

/-- C7 inputs: features with `HistoricalVol = 0.70`. -/
def gridF2 : MarketFeatures := { historicalVol := 7/10, bestBid := 100, bestAsk := 100 }

/-- C7 inputs: features with `HistoricalVol = 2.50` (volatility 250%). -/
def gridFHigh : MarketFeatures := { historicalVol := 5/2, bestBid := 100, bestAsk := 100 }

/-- A fresh grid strategy with the default configuration. -/
def grid0 : GridTradingStrategy := NewGridTradingStrategy DefaultGridConfig "BTCUSD"

/-- The grid strategy after one `Analyze` evaluation at `HistoricalVol = 0.20`. -/
def grid1 : GridTradingStrategy := (grid0.Analyze gridF1).1

lemma grid1_fields :
    grid1.cfg = DefaultGridConfig ∧ grid1.isActive = true ∧ grid1.centerPrice = 100 := by
  norm_num [grid1, grid0, NewGridTradingStrategy, GridTradingStrategy.Analyze,
    DefaultGridConfig, gridF1]

lemma grid_second_eval (g : GridTradingStrategy) (hcfg : g.cfg = DefaultGridConfig)
    (hact : g.isActive = true) (hc : g.centerPrice = 100) :
    (g.Analyze gridF2).1 = g ∧ (g.Analyze gridF2).2.action ≠ ActionClose := by
  rcases h0 : g.levels.head? with _ | l0 <;> rcases h1 : g.levels.getLast? with _ | ln <;>
    · simp only [GridTradingStrategy.Analyze, gridF2, hcfg, hact, hc,
        DefaultGridConfig, h0, h1]
      norm_num [ActionClose, ActionNone, ActionBuy, ActionSell]
      try split_ifs <;> simp [ActionClose, ActionNone, ActionBuy, ActionSell]
      try decide

/-- C7 counterexample: under the default grid configuration the second
`Analyze` evaluation, at `HistoricalVol = 0.70` (volatility 70%, below the
default 200% maximum), does not emit a close signal and does not deactivate
the grid. -/
theorem grid_vol_070_does_not_deactivate :
    ¬ ((grid1.Analyze gridF2).2.action = ActionClose
       ∧ (grid1.Analyze gridF2).1.isActive = false) := by
  obtain ⟨hcfg, hact, hc⟩ := grid1_fields
  obtain ⟨heq, hne⟩ := grid_second_eval grid1 hcfg hact hc
  intro hcl
  exact hne hcl.1

/-- C7 (amended): with the default configuration, one evaluation at
`HistoricalVol = 0.20` activates the grid (volatility 20% lies strictly
between 5 and the 150% minimum-volatility threshold); a subsequent evaluation
at `HistoricalVol = 0.70` leaves the grid active and emits no close signal,
because deactivation requires volatility above the default 200% maximum; an
evaluation at `HistoricalVol = 2.50` does emit close and deactivates. -/
theorem grid_activation_and_deactivation_thresholds :
    grid1.isActive = true
    ∧ (5 < gridF1.historicalVol * 100
       ∧ gridF1.historicalVol * 100 < DefaultGridConfig.minVolatilityPct)
    ∧ (grid1.Analyze gridF2).1.isActive = true
    ∧ (grid1.Analyze gridF2).2.action ≠ ActionClose
    ∧ gridF2.historicalVol * 100 ≤ DefaultGridConfig.maxVolatilityPct
    ∧ (grid1.Analyze gridFHigh).2.action = ActionClose
    ∧ (grid1.Analyze gridFHigh).1.isActive = false := by
  obtain ⟨hcfg, hact, hc⟩ := grid1_fields
  obtain ⟨heq, hne⟩ := grid_second_eval grid1 hcfg hact hc
  refine ⟨hact, by norm_num [gridF1, DefaultGridConfig], by rw [heq]; exact hact, hne,
    by norm_num [gridF2, DefaultGridConfig], ?_, ?_⟩ <;>
    · simp only [GridTradingStrategy.Analyze, gridFHigh, hcfg, hact, hc, DefaultGridConfig]
      norm_num [ActionClose]

/-- The funding-arbitrage strategy with default thresholds and no recorded
position. -/
def defaultFunding : FundingArbitrageStrategy := { cfg := DefaultFundingArbitrageConfig }

/-- The funding-arbitrage strategy holding one recorded position on BTCUSD. -/
def fundingHolding (p : FundingPosition) : FundingArbitrageStrategy :=
  { cfg := DefaultFundingArbitrageConfig, positions := [("BTCUSD", p)] }

/-- C8: with default thresholds and no open position, annualized funding 0.10
yields `none`, 0.20 yields `sell`, −0.20 yields `buy`; holding a recorded
position, `|funding| < 0.05` yields `close`, holding longer than 24 hours
yields `close`, and otherwise the signal is `none`. -/
theorem funding_arbitrage_thresholds :
    (∀ now : ℚ, (defaultFunding.Analyze now
        { symbol := "BTCUSD", basisAnnualized := 1/10 }).action = ActionNone)
    ∧ (∀ now : ℚ, (defaultFunding.Analyze now
        { symbol := "BTCUSD", basisAnnualized := 1/5 }).action = ActionSell)
    ∧ (∀ now : ℚ, (defaultFunding.Analyze now
        { symbol := "BTCUSD", basisAnnualized := -(1/5) }).action = ActionBuy)
    ∧ (∀ (p : FundingPosition) (fAnn now : ℚ), |fAnn| < 1/20 →
        ((fundingHolding p).Analyze now
          { symbol := "BTCUSD", basisAnnualized := fAnn }).action = ActionClose)
    ∧ (∀ (p : FundingPosition) (fAnn now : ℚ), now - p.entryTime > 24 →
        ((fundingHolding p).Analyze now
          { symbol := "BTCUSD", basisAnnualized := fAnn }).action = ActionClose)
    ∧ (∀ (p : FundingPosition) (fAnn now : ℚ), ¬ |fAnn| < 1/20 →
        ¬ now - p.entryTime > 24 →
        ((fundingHolding p).Analyze now
          { symbol := "BTCUSD", basisAnnualized := fAnn }).action = ActionNone) := by
  refine ⟨fun now => ?_, fun now => ?_, fun now => ?_,
    fun p fAnn now h => ?_, fun p fAnn now h => ?_, fun p fAnn now h1 h2 => ?_⟩
  · have habs : |(1:ℚ)/10| = 1/10 := by norm_num
    norm_num [defaultFunding, FundingArbitrageStrategy.Analyze,
      DefaultFundingArbitrageConfig, ActionNone, habs]
  · have habs : |(1:ℚ)/5| = 1/5 := by norm_num
    norm_num [defaultFunding, FundingArbitrageStrategy.Analyze,
      DefaultFundingArbitrageConfig, ActionSell, habs]
  · have habs : |(1:ℚ)/5| = 1/5 := by norm_num
    norm_num [defaultFunding, FundingArbitrageStrategy.Analyze,
      DefaultFundingArbitrageConfig, ActionBuy, habs]
  · simp only [fundingHolding, FundingArbitrageStrategy.Analyze,
      DefaultFundingArbitrageConfig, List.lookup]
    norm_num [h]
  · simp only [fundingHolding, FundingArbitrageStrategy.Analyze,
      DefaultFundingArbitrageConfig, List.lookup]
    norm_num [h]
    split_ifs <;> rfl
  · simp only [fundingHolding, FundingArbitrageStrategy.Analyze,
      DefaultFundingArbitrageConfig, List.lookup]
    norm_num [h1, h2]

/-- A fill poll that the `WaitForOrderFill` loop passes over: a successful
`GetOrderByID` whose order is in one of the non-terminal states. -/
def benignFillPoll (p : PollResult) : Prop :=
  ∃ o, p = some o ∧ (o.state = "open" ∨ o.state = "pending" ∨ o.state = "partially_filled")

lemma waitForOrderFillLoop_rejected (orderID : Int) (ro : Order)
    (hro : ro.state = "rejected") :
    ∀ (pre : List PollResult), (∀ p ∈ pre, benignFillPoll p) →
    ∀ (rest : List PollResult) (last : Option Order) (final : PollResult),
    waitForOrderFillLoop orderID (pre ++ some ro :: rest) 0 last final
      = .error (.orderRejected orderID "order rejected by exchange") := by
  intro pre
  induction pre with
  | nil =>
    intro _ rest last final
    simp [waitForOrderFillLoop, hro]
  | cons p pre ih =>
    intro hpre rest last final
    obtain ⟨o, rfl, ho⟩ := hpre p (by simp)
    have htail : ∀ q ∈ pre, benignFillPoll q := fun q hq => hpre q (by simp [hq])
    rcases ho with h | h | h <;>
      simp [waitForOrderFillLoop, h, ih htail rest (some o) final]

/-- C2: whenever polling surfaces `state == "rejected"` (after any run of
non-terminal polls), `WaitForOrderFill` returns the typed
`OrderRejectedError` carrying the order id and reason, and
`PlaceLimitOrderWithFallback` propagates it without placing any market
fallback order. -/
theorem rejected_returns_typed_error_no_market (req : OrderRequest)
    (env : FallbackEnv) (lo : Order) (pre rest : List PollResult) (ro : Order)
    (hplaced : env.limitPlaced = .ok lo)
    (hpolls : env.fillPolls = pre ++ some ro :: rest)
    (hpre : ∀ p ∈ pre, benignFillPoll p)
    (hro : ro.state = "rejected") :
    WaitForOrderFill lo.id env.fillPolls env.fillFinalPoll
      = .error (.orderRejected lo.id "order rejected by exchange")
    ∧ PlaceLimitOrderWithFallback req env
      = .failed (.rejected lo.id "order rejected by exchange")
    ∧ ∀ r, PlaceLimitOrderWithFallback req env ≠ .marketPlaced r := by
  have hwait : WaitForOrderFill lo.id env.fillPolls env.fillFinalPoll
      = .error (.orderRejected lo.id "order rejected by exchange") := by
    rw [WaitForOrderFill, hpolls]
    exact waitForOrderFillLoop_rejected lo.id ro hro pre hpre rest none env.fillFinalPoll
  have hfb : PlaceLimitOrderWithFallback req env
      = .failed (.rejected lo.id "order rejected by exchange") := by
    simp only [PlaceLimitOrderWithFallback, hplaced, hwait]
  exact ⟨hwait, hfb, by simp [hfb]⟩

/-- C2 witness: one non-terminal poll, then a rejected poll. -/
theorem rejected_returns_typed_error_no_market_witness :
    WaitForOrderFill 7
        [some { id := 7, state := "open", size := 10, unfilledSize := 10 },
         some { id := 7, state := "rejected", size := 10, unfilledSize := 10 }] none
      = .error (.orderRejected 7 "order rejected by exchange")
    ∧ PlaceLimitOrderWithFallback { productID := 1, size := 10, side := "buy" }
        { limitPlaced := .ok { id := 7, state := "open", size := 10, unfilledSize := 10 },
          fillPolls := [some { id := 7, state := "open", size := 10, unfilledSize := 10 },
                        some { id := 7, state := "rejected", size := 10, unfilledSize := 10 }],
          fillFinalPoll := none, cancelPolls := [], cancelFinalPoll := none }
      = .failed (.rejected 7 "order rejected by exchange")
    ∧ ∀ r, PlaceLimitOrderWithFallback { productID := 1, size := 10, side := "buy" }
        { limitPlaced := .ok { id := 7, state := "open", size := 10, unfilledSize := 10 },
          fillPolls := [some { id := 7, state := "open", size := 10, unfilledSize := 10 },
                        some { id := 7, state := "rejected", size := 10, unfilledSize := 10 }],
          fillFinalPoll := none, cancelPolls := [], cancelFinalPoll := none }
      ≠ .marketPlaced r :=
  rejected_returns_typed_error_no_market
    { productID := 1, size := 10, side := "buy" }
    { limitPlaced := .ok { id := 7, state := "open", size := 10, unfilledSize := 10 },
      fillPolls := [some { id := 7, state := "open", size := 10, unfilledSize := 10 },
                    some { id := 7, state := "rejected", size := 10, unfilledSize := 10 }],
      fillFinalPoll := none, cancelPolls := [], cancelFinalPoll := none }
    { id := 7, state := "open", size := 10, unfilledSize := 10 }
    [some { id := 7, state := "open", size := 10, unfilledSize := 10 }] []
    { id := 7, state := "rejected", size := 10, unfilledSize := 10 }
    rfl rfl
    (by
      intro p hp
      simp only [List.mem_singleton] at hp
      exact ⟨_, hp, Or.inl rfl⟩)
    rfl

/-- A cancel poll that is not terminal for the cancel-confirmation loop:
either a `GetOrderByID` error, or an order neither filled nor cancelled. -/
def nonTerminalCancelPoll (p : PollResult) : Prop :=
  ∀ o, p = some o → o.state ≠ "filled" ∧ o.state ≠ "cancelled"

lemma waitForCancelLoop_terminal (fo : Order) :
    ∀ (pre : List PollResult), (∀ p ∈ pre, nonTerminalCancelPoll p) →
    ∀ (rest : List PollResult) (final : PollResult),
    (fo.state = "filled" →
      waitForCancelLoop (pre ++ some fo :: rest) final = (some fo, false))
    ∧ (fo.state = "cancelled" →
      waitForCancelLoop (pre ++ some fo :: rest) final = (some fo, true)) := by
  intro pre
  induction pre with
  | nil =>
    intro _ rest final
    constructor <;> intro h <;> simp [waitForCancelLoop, h]
  | cons p pre ih =>
    intro hpre rest final
    have htail : ∀ q ∈ pre, nonTerminalCancelPoll q := fun q hq => hpre q (by simp [hq])
    rcases p with _ | o
    · refine ⟨fun h => ?_, fun h => ?_⟩
      · simpa [waitForCancelLoop] using (ih htail rest final).1 h
      · simpa [waitForCancelLoop] using (ih htail rest final).2 h
    · obtain ⟨h1, h2⟩ := hpre (some o) (by simp) o rfl
      constructor <;> intro h <;>
        simp [waitForCancelLoop, h1, h2, (ih htail rest final).1, (ih htail rest final).2, h]

lemma waitForCancelLoop_no_terminal :
    ∀ (polls : List PollResult), (∀ p ∈ polls, nonTerminalCancelPoll p) →
    ∀ (final : PollResult), nonTerminalCancelPoll final →
    (waitForCancelLoop polls final).2 = false := by
  intro polls
  induction polls with
  | nil =>
    intro _ final hfin
    rcases final with _ | o
    · simp [waitForCancelLoop]
    · obtain ⟨h1, h2⟩ := hfin o rfl
      simp [waitForCancelLoop, h1, h2]
  | cons p polls ih =>
    intro hpre final hfin
    have htail : ∀ q ∈ polls, nonTerminalCancelPoll q := fun q hq => hpre q (by simp [hq])
    rcases p with _ | o
    · simp [waitForCancelLoop, ih htail final hfin]
    · obtain ⟨h1, h2⟩ := hpre (some o) (by simp) o rfl
      simp [waitForCancelLoop, h1, h2, ih htail final hfin]

/-- C3: within the bounded cancel-confirmation polling (the 2 s deadline is
modelled by the finite poll list), a poll showing `filled` returns that order
with replacement refused — and the fallback then returns the filled order and
places no replacement; a poll showing `cancelled` reports replacement safe;
when no terminal state appears in any poll nor the final check, the order is
indeterminate, replacement is refused, and the fallback (after a timeout)
returns the cannot-safely-replace error. -/
theorem cancel_confirmation_policy :
    (∀ (pre rest : List PollResult) (fo : Order) (final : PollResult),
      (∀ p ∈ pre, nonTerminalCancelPoll p) → fo.state = "filled" →
      waitForCancelConfirmation (pre ++ some fo :: rest) final = (some fo, false))
    ∧ (∀ (pre rest : List PollResult) (fo : Order) (final : PollResult),
      (∀ p ∈ pre, nonTerminalCancelPoll p) → fo.state = "cancelled" →
      waitForCancelConfirmation (pre ++ some fo :: rest) final = (some fo, true))
    ∧ (∀ (polls : List PollResult) (final : PollResult),
      (∀ p ∈ polls, nonTerminalCancelPoll p) → nonTerminalCancelPoll final →
      (waitForCancelConfirmation polls final).2 = false)
    ∧ (∀ (req : OrderRequest) (env : FallbackEnv) (lo fo : Order),
      env.limitPlaced = .ok lo →
      WaitForOrderFill lo.id env.fillPolls env.fillFinalPoll = .ok none →
      waitForCancelConfirmation env.cancelPolls env.cancelFinalPoll = (some fo, false) →
      fo.state = "filled" →
      PlaceLimitOrderWithFallback req env = .returned (some fo)
        ∧ ∀ r, PlaceLimitOrderWithFallback req env ≠ .marketPlaced r)
    ∧ (∀ (req : OrderRequest) (env : FallbackEnv) (lo : Order),
      env.limitPlaced = .ok lo →
      WaitForOrderFill lo.id env.fillPolls env.fillFinalPoll = .ok none →
      (waitForCancelConfirmation env.cancelPolls env.cancelFinalPoll).2 = false →
      (∀ fo, (waitForCancelConfirmation env.cancelPolls env.cancelFinalPoll).1 = some fo →
        fo.state ≠ "filled") →
      PlaceLimitOrderWithFallback req env = .failed .cannotSafelyReplaceAfterTimeout) := by
  refine ⟨?_, ?_, ?_, ?_, ?_⟩
  · intro pre rest fo final hpre hfo
    exact (waitForCancelLoop_terminal fo pre hpre rest final).1 hfo
  · intro pre rest fo final hpre hfo
    exact (waitForCancelLoop_terminal fo pre hpre rest final).2 hfo
  · intro polls final hpolls hfin
    exact waitForCancelLoop_no_terminal polls hpolls final hfin
  · intro req env lo fo hplaced hfill hcancel hfo
    have hres : PlaceLimitOrderWithFallback req env = .returned (some fo) := by
      simp only [PlaceLimitOrderWithFallback, hplaced, hfill, hcancel, hfo]
      simp
    exact ⟨hres, by simp [hres]⟩
  · intro req env lo hplaced hfill hsafe hnotfilled
    rcases hc : waitForCancelConfirmation env.cancelPolls env.cancelFinalPoll with ⟨c1, c2⟩
    rw [hc] at hsafe hnotfilled
    simp only at hsafe hnotfilled
    subst hsafe
    rcases c1 with _ | fo
    · simp only [PlaceLimitOrderWithFallback, hplaced, hfill, hc]
      simp
    · have hnf : fo.state ≠ "filled" := hnotfilled fo rfl
      simp only [PlaceLimitOrderWithFallback, hplaced, hfill, hc]
      simp [hnf]

/-- C1: when the limit leg times out (`WaitForOrderFill` returns the timeout
outcome) and the cancel confirmation reports a cancelled order with a safe
replacement and unfilled contracts remaining, the fallback market order for
the remainder carries no bracket stop-loss or take-profit prices when some
contracts were already filled, and carries the original bracket prices when
the filled quantity is 0. -/
theorem timeout_partial_fill_bracket_policy (req : OrderRequest)
    (env : FallbackEnv) (lo fo : Order)
    (hplaced : env.limitPlaced = .ok lo)
    (hfill : WaitForOrderFill lo.id env.fillPolls env.fillFinalPoll = .ok none)
    (hcancel : waitForCancelConfirmation env.cancelPolls env.cancelFinalPoll
      = (some fo, true))
    (hcc : fo.state = "cancelled")
    (hrem : 0 < fo.unfilledSize) :
    (0 < fo.size - fo.unfilledSize →
      PlaceLimitOrderWithFallback req env = .marketPlaced
        { productID := req.productID, size := fo.unfilledSize, side := req.side,
          orderType := "market_order" })
    ∧ (fo.size - fo.unfilledSize = 0 →
      ∃ m, PlaceLimitOrderWithFallback req env = .marketPlaced m
        ∧ m.size = fo.unfilledSize ∧ m.orderType = "market_order"
        ∧ m.bracketStopLossPrice = req.bracketStopLossPrice
        ∧ m.bracketTakeProfitPrice = req.bracketTakeProfitPrice) := by
  have hnf : fo.state ≠ "filled" := by rw [hcc]; decide
  have hle : ¬ fo.unfilledSize ≤ 0 := not_le.mpr hrem
  constructor
  · intro hq
    have hq0 : ¬ (fo.size - fo.unfilledSize = 0) := by omega
    simp only [PlaceLimitOrderWithFallback, hplaced, hfill, hcancel]
    simp [hnf, hle, hq0]
  · intro hq
    by_cases hb : req.bracketStopLossPrice ≠ "" ∨ req.bracketTakeProfitPrice ≠ ""
    · refine ⟨{ productID := req.productID, size := fo.unfilledSize,
                side := req.side, orderType := "market_order",
                bracketStopLossPrice := req.bracketStopLossPrice,
                bracketStopLossLimitPrice := req.bracketStopLossLimitPrice,
                bracketTakeProfitPrice := req.bracketTakeProfitPrice,
                bracketTakeProfitLimitPrice := req.bracketTakeProfitLimitPrice },
        ?_, rfl, rfl, rfl, rfl⟩
      simp only [PlaceLimitOrderWithFallback, hplaced, hfill, hcancel]
      simp [hnf, hle, hq, hb]
    · push_neg at hb
      obtain ⟨hsl, htp⟩ := hb
      refine ⟨{ productID := req.productID, size := fo.unfilledSize,
                side := req.side, orderType := "market_order" },
        ?_, rfl, rfl, by simp [hsl], by simp [htp]⟩
      simp only [PlaceLimitOrderWithFallback, hplaced, hfill, hcancel]
      simp [hnf, hle, hq, hsl, htp]

/-- C1 witness: a limit for 10 with brackets times out with 6 contracts
filled; the fallback market order for the remaining 4 carries no bracket
fields. -/
theorem timeout_partial_fill_bracket_policy_witness :
    PlaceLimitOrderWithFallback
      { productID := 1, size := 10, side := "buy",
        bracketStopLossPrice := "95", bracketTakeProfitPrice := "105" }
      { limitPlaced := .ok { id := 7, state := "open", size := 10, unfilledSize := 10 },
        fillPolls := [], fillFinalPoll := none,
        cancelPolls := [some { id := 7, state := "cancelled", size := 10, unfilledSize := 4 }],
        cancelFinalPoll := none }
    = .marketPlaced { productID := 1, size := 4, side := "buy",
                      orderType := "market_order" } :=
  (timeout_partial_fill_bracket_policy
    { productID := 1, size := 10, side := "buy",
      bracketStopLossPrice := "95", bracketTakeProfitPrice := "105" }
    { limitPlaced := .ok { id := 7, state := "open", size := 10, unfilledSize := 10 },
      fillPolls := [], fillFinalPoll := none,
      cancelPolls := [some { id := 7, state := "cancelled", size := 10, unfilledSize := 4 }],
      cancelFinalPoll := none }
    { id := 7, state := "open", size := 10, unfilledSize := 10 }
    { id := 7, state := "cancelled", size := 10, unfilledSize := 4 }
    rfl rfl rfl rfl (by decide)).1 (by decide)

end DeltaGo
